import Mathlib

/-!
Verification of the mortgage affordability core
(`src/utils/mortgageCalculations.ts`) against its specification.

All TypeScript `number` values are modelled as rationals (`ℚ`); the
JavaScript `Math.round` (round half toward positive infinity) is `round`
on `ℚ`, and `Math.floor` is `Int.floor`.  Loan terms that feed the
exponent of the annuity formula are modelled as natural numbers of years,
matching every call site in the repository.  Results of `Math.round` and
`Math.floor` are integers (`ℤ`).
-/

namespace Mortgage

/-- Loan type variants, from the union type `'conventional' | 'fha'`. -/
inductive LoanType where
  | conventional
  | fha
deriving DecidableEq

/-- `FHA_UPFRONT_MIP`: upfront MIP is 1.75% of loan amount. -/
def FHA_UPFRONT_MIP : ℚ := 1.75

/-- `getFicoRateAdjustment`: banded FICO rate adjustment per loan type,
from the cascading comparisons over `FICO_RATE_ADJUSTMENTS`.  For a
conventional score below 620 the source returns the penalty value 999. -/
def getFicoRateAdjustment (ficoScore : ℚ) (loanType : LoanType) : ℚ :=
  match loanType with
  | .conventional =>
    if ficoScore ≥ 740 then 0
    else if ficoScore ≥ 720 then 0.125
    else if ficoScore ≥ 700 then 0.25
    else if ficoScore ≥ 680 then 0.375
    else if ficoScore ≥ 660 then 0.5
    else if ficoScore ≥ 640 then 0.75
    else if ficoScore ≥ 620 then 1
    else 999
  | .fha =>
    if ficoScore ≥ 740 then 0
    else if ficoScore ≥ 720 then 0
    else if ficoScore ≥ 700 then 0.125
    else if ficoScore ≥ 680 then 0.25
    else if ficoScore ≥ 660 then 0.25
    else if ficoScore ≥ 640 then 0.25
    else if ficoScore ≥ 620 then 0.25
    else if ficoScore ≥ 580 then 0.5
    else if ficoScore ≥ 500 then 0.75
    else 0.75

/-- `getLtvRateAdjustment`: banded LTV rate adjustment, from the
cascading comparisons over `LTV_RATE_ADJUSTMENTS`. -/
def getLtvRateAdjustment (ltv : ℚ) : ℚ :=
  if ltv < 60 then -0.25
  else if ltv < 70 then -0.125
  else if ltv < 75 then 0
  else if ltv < 80 then 0
  else if ltv < 85 then 0.125
  else if ltv < 90 then 0.25
  else if ltv < 95 then 0.375
  else if ltv ≤ 97 then 0.5
  else 0.75

/-- `InterestRatesObject`: a pair of optional base rates, one per loan
type (`number | null` becomes `Option ℚ`). -/
structure InterestRatesObject where
  conventional : Option ℚ
  fha : Option ℚ
deriving DecidableEq

/-- Field selection `interestRates[loanType]` from the source. -/
def InterestRatesObject.rateFor (r : InterestRatesObject) : LoanType → Option ℚ
  | .conventional => r.conventional
  | .fha => r.fha

/-- `calculateAdjustedRate`: picks the base rate for the loan type;
when it is `null` the source returns the numeric default 99, otherwise
base + FICO adjustment + LTV adjustment clamped below at 0.1. -/
def calculateAdjustedRate (interestRates : InterestRatesObject)
    (ficoScore ltv : ℚ) (loanType : LoanType) : ℚ :=
  match interestRates.rateFor loanType with
  | none => 99
  | some baseRate =>
    let ficoAdjustment := getFicoRateAdjustment ficoScore loanType
    let ltvAdjustment := getLtvRateAdjustment ltv
    let adjusted := baseRate + ficoAdjustment + ltvAdjustment
    max adjusted 0.1

/-- `calculateMaxDTI`: base DTI limit per loan type with conditional
raises, from `DTI_LIMITS`.  The sequential reassignments of the source
become nested lets. -/
def calculateMaxDTI (ficoScore ltv : ℚ) (loanType : LoanType)
    (mitigatingFactors : List String) : ℚ :=
  match loanType with
  | .conventional =>
    let d1 : ℚ := if ficoScore ≥ 720 then 45 else 36
    let d2 : ℚ := if "reserves" ∈ mitigatingFactors then max d1 45 else d1
    if ltv ≤ 75 then max d2 45 else d2
  | .fha =>
    let d1 : ℚ := if ficoScore ≥ 680 then 50 else 43
    let d2 : ℚ := if "reserves" ∈ mitigatingFactors then max d1 50 else d1
    if 2 ≤ mitigatingFactors.length then max d2 50 else d2

/-- `calculateMonthlyPayment`: principal-and-interest by the annuity
formula (straight line at zero rate), plus monthly tax, insurance and
PMI, rounded with `Math.round`. -/
def calculateMonthlyPayment (loanAmount interestRate : ℚ) (termYears : ℕ := 30)
    (propertyTax : ℚ := 0) (propertyInsurance : ℚ := 0) (pmi : ℚ := 0) : ℤ :=
  let monthlyRate := interestRate / 100 / 12
  let totalPayments : ℕ := termYears * 12
  let monthlyPrincipalAndInterest :=
    if monthlyRate = 0 then loanAmount / (totalPayments : ℚ)
    else loanAmount * (monthlyRate * (1 + monthlyRate) ^ totalPayments) /
      ((1 + monthlyRate) ^ totalPayments - 1)
  let monthlyPropertyTax := propertyTax / 12
  let monthlyInsurance := propertyInsurance / 12
  let monthlyPMI := (pmi / 100) * loanAmount / 12
  round (monthlyPrincipalAndInterest + monthlyPropertyTax + monthlyInsurance + monthlyPMI)

/-- `calculateMaxPurchasePrice`: solves for a maximum home price from the
DTI budget.  Note that the source divides the per-loan-dollar P and I
factor by the loan-to-value fraction (`loanToValueFraction`, the
source's `loanToValueRatio`). -/
def calculateMaxPurchasePrice (annualIncome monthlyDebts dti interestRate
    propertyTaxRate annualInsurance downPaymentPercent : ℚ)
    (pmiRate : ℚ := 0) (termYears : ℕ := 30) : ℤ :=
  let maxMonthlyPayment := (annualIncome / 12) * (dti / 100) - monthlyDebts
  let monthlyPropertyTaxRate := (propertyTaxRate / 100) / 12
  let monthlyInsuranceRate := annualInsurance / 12
  let loanToValueFraction := 1 - (downPaymentPercent / 100)
  let effectivePmiRate := (pmiRate / 100) * loanToValueFraction / 12
  let monthlyRate := interestRate / 100 / 12
  let totalPayments : ℕ := termYears * 12
  let piMultiplier :=
    if monthlyRate = 0 then 1 / ((totalPayments : ℚ) * loanToValueFraction)
    else (monthlyRate * (1 + monthlyRate) ^ totalPayments) /
      (((1 + monthlyRate) ^ totalPayments - 1) * loanToValueFraction)
  let totalMultiplier := piMultiplier + monthlyPropertyTaxRate + effectivePmiRate
  let maxHomePrice := (maxMonthlyPayment - monthlyInsuranceRate) / totalMultiplier
  ⌊maxHomePrice⌋

/-- Result record of `getFhaMipRates`. -/
structure MipRates where
  upfrontMipPercent : ℚ
  annualMipPercent : ℚ
deriving DecidableEq

/-- `getFhaMipRates`: upfront 1.75 always; annual banded by term and LTV
from `FHA_ANNUAL_MIP`. -/
def getFhaMipRates (loanAmount ltv : ℚ) (termYears : ℚ := 30) : MipRates :=
  let upfrontMipPercent := FHA_UPFRONT_MIP
  let annualMipPercent : ℚ :=
    if termYears ≤ 15 then
      if ltv ≤ 90 then 0.45 else 0.70
    else
      if ltv ≤ 90 then 0.50 else 0.55
  { upfrontMipPercent := upfrontMipPercent, annualMipPercent := annualMipPercent }

/-- `getNextFicoBand`: next FICO band boundary per loan type, or none. -/
def getNextFicoBand (currentFico : ℚ) (loanType : LoanType) : Option ℚ :=
  match loanType with
  | .conventional =>
    if currentFico < 620 then some 620
    else if currentFico < 640 then some 640
    else if currentFico < 660 then some 660
    else if currentFico < 680 then some 680
    else if currentFico < 700 then some 700
    else if currentFico < 720 then some 720
    else if currentFico < 740 then some 740
    else none
  | .fha =>
    if currentFico < 500 then none
    else if currentFico < 580 then some 580
    else if currentFico < 620 then some 620
    else if currentFico < 640 then some 640
    else if currentFico < 660 then some 660
    else if currentFico < 680 then some 680
    else if currentFico < 700 then some 700
    else if currentFico < 720 then some 720
    else if currentFico < 740 then some 740
    else none

/-- `getLowerLtvOption`: next lower LTV band boundary, or none. -/
def getLowerLtvOption (currentLtv : ℚ) : Option ℚ :=
  if currentLtv > 97 then some 97
  else if currentLtv > 95 then some 95
  else if currentLtv > 90 then some 90
  else if currentLtv > 85 then some 85
  else if currentLtv > 80 then some 80
  else if currentLtv > 75 then some 75
  else if currentLtv > 70 then some 70
  else if currentLtv > 60 then some 60
  else none

/-- Spec wording for C9: the conventional FICO boundaries in ascending
order. -/
def convFicoBoundaries : List ℚ := [620, 640, 660, 680, 700, 720, 740]

/-- Spec wording for C9: the FHA FICO boundaries in ascending order
(above the 500 floor). -/
def fhaFicoBoundaries : List ℚ := [580, 620, 640, 660, 680, 700, 720, 740]

/-- Spec wording for C9: the LTV boundaries in descending order. -/
def ltvBoundaries : List ℚ := [97, 95, 90, 85, 80, 75, 70, 60]

/-- Modelled from the spec for C9: the smallest boundary strictly greater
than the current score (the first match in the ascending list), with the
FHA 500 floor returning none; compared below with `getNextFicoBand`. -/
def nextFicoBandSpec (currentFico : ℚ) (loanType : LoanType) : Option ℚ :=
  match loanType with
  | .conventional => convFicoBoundaries.find? (fun b => decide (currentFico < b))
  | .fha =>
    if currentFico < 500 then none
    else fhaFicoBoundaries.find? (fun b => decide (currentFico < b))

/-- Modelled from the spec for C9: the largest boundary strictly less
than the current LTV (the first match in the descending list); compared
below with `getLowerLtvOption`. -/
def nextLtvBandSpec (currentLtv : ℚ) : Option ℚ :=
  ltvBoundaries.find? (fun b => decide (b < currentLtv))

/-- Proof-layer view of a cascading banded lookup: the first pair whose
threshold is at most `x` wins, otherwise the default applies.  Used to
reason uniformly about the FICO adjustment cascade. -/
def bandedLookup (bands : List (ℚ × ℚ)) (deflt : ℚ) (x : ℚ) : ℚ :=
  match bands with
  | [] => deflt
  | (t, v) :: rest => if t ≤ x then v else bandedLookup rest deflt x

/-- A common lower bound of all band values and the default bounds every
lookup result. -/
theorem le_bandedLookup (bands : List (ℚ × ℚ)) (deflt x c : ℚ)
    (hv : ∀ v ∈ bands.map Prod.snd, c ≤ v) (hd : c ≤ deflt) :
    c ≤ bandedLookup bands deflt x := by
  induction bands with
  | nil => exact hd
  | cons p rest ih =>
    obtain ⟨t, v⟩ := p
    simp only [bandedLookup]
    split_ifs
    · exact hv v (by simp)
    · exact ih (fun w hw => hv w (by simp [hw]))

/-- When the band values (highest threshold first) followed by the
default are non-decreasing, the banded lookup is antitone in `x`. -/
theorem bandedLookup_anti (bands : List (ℚ × ℚ)) (deflt : ℚ)
    (hchain : List.Pairwise (· ≤ ·) (bands.map Prod.snd ++ [deflt]))
    (x y : ℚ) (hxy : x ≤ y) :
    bandedLookup bands deflt y ≤ bandedLookup bands deflt x := by
  induction bands with
  | nil => exact le_refl _
  | cons p rest ih =>
    obtain ⟨t, v⟩ := p
    simp only [List.map_cons, List.cons_append, List.pairwise_cons] at hchain
    obtain ⟨hhead, htail⟩ := hchain
    simp only [bandedLookup]
    split_ifs with h1 h2 h2
    · exact le_refl _
    · refine le_bandedLookup rest deflt x v ?_ (hhead deflt (by simp))
      exact fun w hw => hhead w (by simp [hw])
    · exact absurd (le_trans h2 hxy) h1
    · exact ih htail

/-- The conventional FICO cascade is the banded lookup over the
conventional table of `FICO_RATE_ADJUSTMENTS` with default 999. -/
theorem ficoAdj_conv_eq_banded (f : ℚ) :
    getFicoRateAdjustment f .conventional =
      bandedLookup [(740, 0), (720, 0.125), (700, 0.25), (680, 0.375),
        (660, 0.5), (640, 0.75), (620, 1)] 999 f := by
  simp only [getFicoRateAdjustment, bandedLookup, ge_iff_le]

/-- The FHA FICO cascade is the banded lookup over the FHA table of
`FICO_RATE_ADJUSTMENTS`, falling back to the 500-579 band value. -/
theorem ficoAdj_fha_eq_banded (f : ℚ) :
    getFicoRateAdjustment f .fha =
      bandedLookup [(740, 0), (720, 0), (700, 0.125), (680, 0.25),
        (660, 0.25), (640, 0.25), (620, 0.25), (580, 0.5), (500, 0.75)] 0.75 f := by
  simp only [getFicoRateAdjustment, bandedLookup, ge_iff_le]

/-- C1: the affordability round trip fails on the code.  With annual
income 120000, no debts, DTI 10 (monthly budget 1000), zero rate, no tax,
no insurance, no PMI, 20% down (LTV 80) and a 30-year term,
`calculateMaxPurchasePrice` returns 288000; re-deriving the loan amount
as 288000 × 80/100 and feeding it back through
`calculateMonthlyPayment` with the same inputs yields 640, which is
smaller than the DTI budget minus one rounding unit (999) — the solver
divides the per-loan-dollar P and I factor by the loan-to-value fraction
where the forward payment multiplies by it, so it is not the claimed
algebraic inverse. -/
theorem maxPurchasePrice_roundTrip_violation :
    calculateMaxPurchasePrice 120000 0 10 0 0 0 20 0 30 = 288000 ∧
    calculateMonthlyPayment (288000 * (80 / 100)) 0 30 ((0 / 100) * 288000) 0 0 = 640 ∧
    ((640 : ℚ) < ((120000 / 12) * (10 / 100) - 0) - 1) := by
  refine ⟨?_, ?_, by norm_num⟩
  · simp only [calculateMaxPurchasePrice]
    norm_num
  · simp only [calculateMonthlyPayment]
    norm_num [round_eq]

/-- C2: when the quote's entry for the requested loan type is null, the
code does not surface an error condition: `calculateAdjustedRate` returns
the numeric sentinel 99 for every FICO score and LTV. -/
theorem adjustedRate_null_sentinel (rates : InterestRatesObject)
    (ficoScore ltv : ℚ) (loanType : LoanType)
    (h : rates.rateFor loanType = none) :
    calculateAdjustedRate rates ficoScore ltv loanType = 99 := by
  simp only [calculateAdjustedRate, h]

/-- Witness for C2's theorem: a quote with a null conventional rate at
FICO 700 and LTV 80 yields the sentinel 99. -/
theorem adjustedRate_null_sentinel_instance :
    calculateAdjustedRate ⟨none, some 5⟩ 700 80 .conventional = 99 :=
  adjustedRate_null_sentinel ⟨none, some 5⟩ 700 80 .conventional rfl

/-- C3: when the budget cannot cover even a $0 loan the code returns a
negative price rather than signalling an unaffordable condition: with no
income, 1000 in monthly debts, DTI 43, zero rate, 1% tax, 1200 insurance
and 20% down, `calculateMaxPurchasePrice` returns -255484. -/
theorem maxPurchasePrice_negative_price :
    calculateMaxPurchasePrice 0 1000 43 0 1 1200 20 0 30 = -255484 ∧
    calculateMaxPurchasePrice 0 1000 43 0 1 1200 20 0 30 < 0 := by
  have h : calculateMaxPurchasePrice 0 1000 43 0 1 1200 20 0 30 = -255484 := by
    simp only [calculateMaxPurchasePrice]
    norm_num
  exact ⟨h, by rw [h]; norm_num⟩

/-- C4: the FICO rate adjustment is non-negative for every score and
loan type, is monotonically non-increasing as the score increases with
the loan type held fixed, and for conventional loans below FICO 620 it
is the ineligibility penalty value 999 (the conventional ineligibility
signal); for FHA scores below 500 the lowest defined band value 0.75 is
returned and ineligibility is the caller's responsibility. -/
theorem ficoRateAdjustment_nonneg_antitone (loanType : LoanType)
    (f1 f2 : ℚ) (h : f1 ≤ f2) :
    0 ≤ getFicoRateAdjustment f1 loanType ∧
    getFicoRateAdjustment f2 loanType ≤ getFicoRateAdjustment f1 loanType ∧
    (f1 < 620 → getFicoRateAdjustment f1 .conventional = 999) := by
  refine ⟨?_, ?_, ?_⟩
  · cases loanType
    · rw [ficoAdj_conv_eq_banded]
      exact le_bandedLookup _ _ _ _ (by norm_num) (by norm_num)
    · rw [ficoAdj_fha_eq_banded]
      exact le_bandedLookup _ _ _ _ (by norm_num) (by norm_num)
  · cases loanType
    · rw [ficoAdj_conv_eq_banded, ficoAdj_conv_eq_banded]
      exact bandedLookup_anti _ _ (by norm_num) f1 f2 h
    · rw [ficoAdj_fha_eq_banded, ficoAdj_fha_eq_banded]
      exact bandedLookup_anti _ _ (by norm_num) f1 f2 h
  · intro h620
    simp only [getFicoRateAdjustment]
    split_ifs <;> first | rfl | linarith

/-- Witness for C4's theorem at FICO scores 600 and 700, conventional. -/
theorem ficoRateAdjustment_nonneg_antitone_instance :
    0 ≤ getFicoRateAdjustment 600 .conventional ∧
    getFicoRateAdjustment 700 .conventional ≤ getFicoRateAdjustment 600 .conventional ∧
    ((600 : ℚ) < 620 → getFicoRateAdjustment 600 .conventional = 999) :=
  ficoRateAdjustment_nonneg_antitone .conventional 600 700 (by norm_num)

/-- C5: the maximum DTI never falls below 36 for conventional loans nor
below 43 for FHA loans, and appending one more mitigating factor, all
other inputs fixed, never decreases the result. -/
theorem maxDTI_floor_and_factor_monotone (ficoScore ltv : ℚ)
    (loanType : LoanType) (l : List String) (x : String) :
    36 ≤ calculateMaxDTI ficoScore ltv .conventional l ∧
    43 ≤ calculateMaxDTI ficoScore ltv .fha l ∧
    calculateMaxDTI ficoScore ltv loanType l ≤
      calculateMaxDTI ficoScore ltv loanType (l ++ [x]) := by
  refine ⟨?_, ?_, ?_⟩
  · simp only [calculateMaxDTI]
    split_ifs <;> norm_num
  · simp only [calculateMaxDTI]
    split_ifs <;> norm_num
  · cases loanType <;>
      simp only [calculateMaxDTI, List.mem_append, List.length_append] <;>
      split_ifs <;> simp_all

/-- C6 counterexample: the FHA branch counts raw list length, so two
lists with the same distinct tags but different multiplicity give
different results: at FICO 600 and LTV 90, one copy of housingHistory
yields 43 while two copies yield 50. -/
theorem maxDTI_duplicate_sensitivity :
    (["housingHistory", "housingHistory"] : List String).dedup =
      (["housingHistory"] : List String).dedup ∧
    calculateMaxDTI 600 90 .fha ["housingHistory"] = 43 ∧
    calculateMaxDTI 600 90 .fha ["housingHistory", "housingHistory"] = 50 := by
  refine ⟨by decide, ?_, ?_⟩ <;>
    · simp only [calculateMaxDTI]
      norm_num
      decide

/-- C6 (amended): for duplicate-free factor lists, `calculateMaxDTI` is
a function of the set of tags only — two lists without duplicates that
contain the same tags give the same result for every FICO score, LTV
and loan type. -/
theorem maxDTI_set_semantics_of_nodup (ficoScore ltv : ℚ)
    (loanType : LoanType) (l1 l2 : List String)
    (h1 : l1.Nodup) (h2 : l2.Nodup) (hm : ∀ s, s ∈ l1 ↔ s ∈ l2) :
    calculateMaxDTI ficoScore ltv loanType l1 =
      calculateMaxDTI ficoScore ltv loanType l2 := by
  have hperm : l1.Perm l2 := (List.perm_ext_iff_of_nodup h1 h2).mpr hm
  have hlen : l1.length = l2.length := hperm.length_eq
  have hres : ("reserves" ∈ l1) = ("reserves" ∈ l2) := propext (hm _)
  cases loanType <;> simp only [calculateMaxDTI, hres, hlen]

/-- Witness for C6's amended theorem: the two orderings of the pair
reserves, minimalDebt give the same FHA result. -/
theorem maxDTI_set_semantics_instance :
    calculateMaxDTI 600 90 .fha ["reserves", "minimalDebt"] =
      calculateMaxDTI 600 90 .fha ["minimalDebt", "reserves"] :=
  maxDTI_set_semantics_of_nodup 600 90 .fha _ _ (by decide) (by decide)
    (by intro s; simp only [List.mem_cons, List.not_mem_nil]; tauto)

/-- C7: the monthly payment is the straight-line principal plus escrow
components at zero rate, the annuity formula plus escrow components at a
nonzero rate, rounded to the nearest whole unit; in particular the two
regression fixtures 278 and 1199 hold. -/
theorem monthlyPayment_formula_and_fixtures :
    calculateMonthlyPayment 100000 0 30 0 0 0 = 278 ∧
    calculateMonthlyPayment 200000 6 30 0 0 0 = 1199 ∧
    (∀ (loanAmt : ℚ) (t : ℕ) (tax ins pmi : ℚ),
      calculateMonthlyPayment loanAmt 0 t tax ins pmi =
        round (loanAmt / ((t * 12 : ℕ) : ℚ) + tax / 12 + ins / 12 +
          (pmi / 100) * loanAmt / 12)) ∧
    (∀ (loanAmt rate : ℚ) (t : ℕ) (tax ins pmi : ℚ), rate ≠ 0 →
      calculateMonthlyPayment loanAmt rate t tax ins pmi =
        round (loanAmt * ((rate / 100 / 12) * (1 + rate / 100 / 12) ^ (t * 12)) /
            ((1 + rate / 100 / 12) ^ (t * 12) - 1) +
          tax / 12 + ins / 12 + (pmi / 100) * loanAmt / 12)) := by
  refine ⟨?_, ?_, ?_, ?_⟩
  · simp only [calculateMonthlyPayment]
    norm_num [round_eq]
  · simp only [calculateMonthlyPayment]
    norm_num [round_eq]
  · intro loanAmt t tax ins pmi
    simp only [calculateMonthlyPayment]
    rw [if_pos (by norm_num)]
  · intro loanAmt rate t tax ins pmi hrate
    simp only [calculateMonthlyPayment]
    rw [if_neg (by simp [div_eq_zero_iff, hrate])]

/-- Witness for C7's theorem: the nonzero-rate branch applied to the
standard 30-year fixture. -/
theorem monthlyPayment_formula_instance :
    calculateMonthlyPayment 200000 6 30 0 0 0 =
      round ((200000 : ℚ) * ((6 / 100 / 12) * (1 + 6 / 100 / 12) ^ (30 * 12)) /
          ((1 + 6 / 100 / 12) ^ (30 * 12) - 1) +
        0 / 12 + 0 / 12 + (0 / 100) * 200000 / 12) :=
  monthlyPayment_formula_and_fixtures.2.2.2 200000 6 30 0 0 0 (by norm_num)

/-- C8: the FHA MIP upfront percentage is always 1.75, the annual
percentage is determined by term and LTV alone through the four bands,
the result is independent of the loan amount, and the two fixtures
hold. -/
theorem fhaMipRates_banding (a b ltv t : ℚ) :
    (getFhaMipRates a ltv t).upfrontMipPercent = 1.75 ∧
    (getFhaMipRates a ltv t).annualMipPercent =
      (if t ≤ 15 then if ltv ≤ 90 then 0.45 else 0.70
       else if ltv ≤ 90 then 0.50 else 0.55) ∧
    getFhaMipRates a ltv t = getFhaMipRates b ltv t ∧
    getFhaMipRates 300000 85 30 = ⟨1.75, 0.50⟩ ∧
    getFhaMipRates 300000 93 10 = ⟨1.75, 0.70⟩ := by
  refine ⟨rfl, rfl, rfl, ?_, ?_⟩ <;>
    · simp only [getFhaMipRates, FHA_UPFRONT_MIP, MipRates.mk.injEq]
      norm_num

/-- C9: the band navigation helpers match the spec: `getNextFicoBand`
returns the smallest boundary strictly above the current score (none at
or above 740, and none below the FHA floor 500), and
`getLowerLtvOption` returns the largest boundary strictly below the
current LTV (none at or below 60). -/
theorem bandNavigation_matches_spec (ficoScore ltv : ℚ) (loanType : LoanType) :
    getNextFicoBand ficoScore loanType = nextFicoBandSpec ficoScore loanType ∧
    getLowerLtvOption ltv = nextLtvBandSpec ltv := by
  constructor
  · cases loanType <;>
      simp only [getNextFicoBand, nextFicoBandSpec, convFicoBoundaries,
        fhaFicoBoundaries] <;>
      split_ifs <;>
      simp_all [List.find?_cons_of_pos, List.find?_cons_of_neg]
  · simp only [getLowerLtvOption, nextLtvBandSpec, ltvBoundaries, gt_iff_lt]
    split_ifs <;>
      simp_all [List.find?_cons_of_pos, List.find?_cons_of_neg]

/-- C10: the maximum DTI is always one of the two table values per loan
type — 36 or 45 for conventional, 43 or 50 for FHA — and hence never
exceeds 45 respectively 50. -/
theorem maxDTI_only_table_values (ficoScore ltv : ℚ) (l : List String) :
    (calculateMaxDTI ficoScore ltv .conventional l = 36 ∨
      calculateMaxDTI ficoScore ltv .conventional l = 45) ∧
    (calculateMaxDTI ficoScore ltv .fha l = 43 ∨
      calculateMaxDTI ficoScore ltv .fha l = 50) ∧
    calculateMaxDTI ficoScore ltv .conventional l ≤ 45 ∧
    calculateMaxDTI ficoScore ltv .fha l ≤ 50 := by
  refine ⟨?_, ?_, ?_, ?_⟩ <;>
    · simp only [calculateMaxDTI]
      split_ifs <;> norm_num

end Mortgage
